import Mathlib

/-!
Verification of the vet cloud sync reporter (package reporter, sync.go).

The Go source is shallowly embedded: the session pool becomes an
association list in map-iteration order, channels become lists, the
WaitGroup counter becomes a natural number, and gRPC calls become
function parameters describing the remote outcome.  Fallible Go code
returns Except or Option.
-/

namespace Vet

/-- A tool session: session id plus an (opaque) client handle.  The
client handle carries no data relevant to the verified properties, so
only the session id is modelled. -/
structure SyncSession where
  sessionId : String
  deriving DecidableEq, Repr

/-- The session pool map, embedded as an association list of entries in
iteration order.  Go map semantics: at most one entry per key; insert
overwrites in place. -/
abbrev SyncSessionPool := List (String × SyncSession)

/-- Go map indexing: the value stored at a key, if any. -/
def poolLookup (pool : SyncSessionPool) (key : String) : Option SyncSession :=
  (pool.find? (fun e => e.1 == key)).map Prod.snd

/-- Go map assignment m[key] = s: overwrite the existing binding for the
key in place, or append a fresh entry. -/
def poolInsert (pool : SyncSessionPool) (key : String) (s : SyncSession) :
    SyncSessionPool :=
  if pool.any (fun e => e.1 == key) then
    pool.map (fun e => if e.1 == key then (key, s) else e)
  else
    pool ++ [(key, s)]

/-- syncSessionPool.addPrimarySession: installs the wildcard session
under the key "*". -/
def addPrimarySession (pool : SyncSessionPool) (sessionId : String) :
    SyncSessionPool :=
  poolInsert pool "*" { sessionId := sessionId }

/-- syncSessionPool.addKeyedSession: installs a session under one
routing key. -/
def addKeyedSession (pool : SyncSessionPool) (key sessionId : String) :
    SyncSessionPool :=
  poolInsert pool key { sessionId := sessionId }

/-- syncSessionPool.getSession: the wildcard entry if present, else the
exact-key entry, else a session-not-found error. -/
def getSession (pool : SyncSessionPool) (key : String) :
    Except String SyncSession :=
  match poolLookup pool "*" with
  | some s => .ok s
  | none =>
    match poolLookup pool key with
    | some s => .ok s
    | none => .error ("session not found for key: " ++ key)

/-- syncSessionPool.forEach: applies the visitor to every entry in
iteration order, stopping at and returning the first error; none when
every visit succeeds.  The Go visitor returns error (some) or nil
(none). -/
def forEach (pool : SyncSessionPool)
    (f : String → SyncSession → Option String) : Option String :=
  match pool with
  | [] => none
  | (key, session) :: rest =>
    match f key session with
    | some err => some err
    | none => forEach rest f

/-- Instrumentation of forEach for the completion claims: the session
ids the visitor was actually invoked on, in order.  Mirrors the
traversal of forEach exactly. -/
def forEachVisited (pool : SyncSessionPool)
    (f : String → SyncSession → Option String) : List String :=
  match pool with
  | [] => []
  | (key, session) :: rest =>
    match f key session with
    | some _ => [session.sessionId]
    | none => session.sessionId :: forEachVisited rest f

/-- syncReporter.Finish, after the drain (wg.Wait / close(done)) has
completed: visit every session and issue a remote completion call.  The
remote outcome is a parameter: complete s = none means the
CompleteToolSession call for s succeeded, some e that it failed with
error e. -/
def finishCompletions (pool : SyncSessionPool)
    (complete : SyncSession → Option String) : Option String :=
  forEach pool (fun _ session => complete session)

/-- The sessions Finish actually attempts to complete, in order. -/
def finishAttempted (pool : SyncSessionPool)
    (complete : SyncSession → Option String) : List String :=
  forEachVisited pool (fun _ session => complete session)

/-! ## Input data model (models.Package and its insight enrichment)

These embed the external package record consumed by the reporter: the
fields of models.Package, models.PackageManifest and the insights API
data that syncPackage reads.  Optional upstream pointers become Option;
the result of pkg.GetDependencies() is carried on the record as an
Except value since the reporter only observes its outcome. -/

/-- The fields of models.PackageManifest that syncPackage reads. -/
structure PackageManifestModel where
  ecosystem : String
  path : String
  displayPath : String
  ctEcosystem : String
  deriving DecidableEq, Repr

/-- A dependency record as consumed from pkg.GetDependencies(): the
child package's ControlTower ecosystem, name and version. -/
structure DependencyRecord where
  ctEcosystem : String
  name : String
  version : String
  deriving DecidableEq, Repr

/-- An insights-API vulnerability entry: optional id and summary. -/
structure VulnerabilityInput where
  id : Option String
  summary : Option String
  deriving DecidableEq, Repr

/-- An insights-API project entry: optional type name, name, link and
star/fork/issue counts. -/
structure ProjectInput where
  typeName : Option String
  name : Option String
  link : Option String
  stars : Option Int
  forks : Option Int
  issues : Option Int
  deriving DecidableEq, Repr

/-- The optional insight enrichment attached to a package record. -/
structure PackageInsights where
  vulnerabilities : Option (List VulnerabilityInput)
  projects : Option (List ProjectInput)
  licenses : Option (List String)
  deriving DecidableEq, Repr

/-- The zero value of the insights struct, produced by SafelyGetValue
when pkg.Insights is nil. -/
def emptyInsights : PackageInsights :=
  { vulnerabilities := none, projects := none, licenses := none }

/-- A package record as consumed by syncPackage.  dependencies is the
observed result of pkg.GetDependencies(). -/
structure Package where
  manifest : PackageManifestModel
  name : String
  version : String
  insights : Option PackageInsights
  dependencies : Except String (List DependencyRecord)
  deriving Repr

/-- utils.SafelyGetValue: dereference an optional value, falling back
to the type's zero value (passed explicitly). -/
def safelyGetValue (v : Option α) (zero : α) : α :=
  v.getD zero

/-- strings.HasPrefix, over the character lists of the two strings. -/
def stringStartsWith (s p : String) : Bool :=
  p.data.isPrefixOf s.data

/-! ## Wire-level publish request (proto messages) -/

/-- packagev1.Package: ecosystem and name. -/
structure ProtoPackage where
  ecosystem : String
  name : String
  deriving DecidableEq, Repr

/-- packagev1.PackageVersion: package identity plus version. -/
structure ProtoPackageVersion where
  package : ProtoPackage
  version : String
  deriving DecidableEq, Repr

/-- vulnerabilityv1.VulnerabilityIdentifierType: unspecified is the
proto zero value. -/
inductive VulnerabilityIdentifierType
  | unspecified
  | cve
  | osv
  deriving DecidableEq, Repr

/-- vulnerabilityv1.VulnerabilityIdentifier: value plus type. -/
structure VulnerabilityIdentifier where
  value : String
  idType : VulnerabilityIdentifierType
  deriving DecidableEq, Repr

/-- vulnerabilityv1.Vulnerability as published: identifier plus
summary. -/
structure ProtoVulnerability where
  id : VulnerabilityIdentifier
  summary : String
  deriving DecidableEq, Repr

/-- packagev1.ProjectSourceType: unspecified is the proto zero value. -/
inductive ProjectSourceType
  | unspecified
  | github
  | gitlab
  deriving DecidableEq, Repr

/-- packagev1.Project: source type, name, url. -/
structure ProtoProject where
  sourceType : ProjectSourceType
  name : String
  url : String
  deriving DecidableEq, Repr

/-- packagev1.ProjectInsight_IssueStat. -/
structure IssueStat where
  total : Int
  deriving DecidableEq, Repr

/-- packagev1.ProjectInsight: the Go code always sets the stars, forks
and issues fields (pointers to freshly computed values), so they are
plain fields here, never absent. -/
structure ProtoProjectInsight where
  project : ProtoProject
  stars : Int
  forks : Int
  issues : IssueStat
  deriving DecidableEq, Repr

/-- packagev1.LicenseMeta: id and name. -/
structure LicenseMeta where
  licenseId : String
  name : String
  deriving DecidableEq, Repr

/-- packagev1.PackageManifest as published. -/
structure ProtoManifest where
  ecosystem : String
  namespaceField : String
  name : String
  deriving DecidableEq, Repr

/-- packagev1.PackageVersionInsight: the four insight lists. -/
structure PackageVersionInsight where
  dependencies : List ProtoPackageVersion
  vulnerabilities : List ProtoVulnerability
  projectInsights : List ProtoProjectInsight
  licenses : List LicenseMeta
  deriving DecidableEq, Repr

/-- controltowerv1.PublishPackageInsightRequest. -/
structure PublishPackageInsightRequest where
  toolSessionId : String
  manifest : ProtoManifest
  packageVersion : ProtoPackageVersion
  packageVersionInsight : PackageVersionInsight
  deriving DecidableEq, Repr

/-! ## Translation (the body of syncReporter.syncPackage) -/

/-- Log severities used by the reporter. -/
inductive LogLevel
  | debug
  | warn
  | error
  deriving DecidableEq, Repr

/-- A log entry emitted while processing. -/
structure LogEntry where
  level : LogLevel
  message : String
  deriving DecidableEq, Repr

/-- One dependency entry of the publish request, built per child
returned by GetDependencies. -/
def translateDependency (child : DependencyRecord) : ProtoPackageVersion :=
  { package := { ecosystem := child.ctEcosystem, name := child.name }
    version := child.version }

/-- One published vulnerability: id value and summary unwrapped with
zero-value defaults, type left at the proto zero value and then set to
CVE or OSV by prefix match on the id. -/
def translateVulnerability (v : VulnerabilityInput) : ProtoVulnerability :=
  let vId := safelyGetValue v.id ""
  let vuln : ProtoVulnerability :=
    { id := { value := vId, idType := .unspecified }
      summary := safelyGetValue v.summary "" }
  if stringStartsWith vId "CVE-" then
    { vuln with id := { vuln.id with idType := .cve } }
  else if stringStartsWith vId "OSV-" then
    { vuln with id := { vuln.id with idType := .osv } }
  else
    vuln

/-- One published project insight: counts unwrapped with zero defaults,
source type switched on the unwrapped type name. -/
def translateProject (p : ProjectInput) : ProtoProjectInsight :=
  let stars := safelyGetValue p.stars 0
  let forks := safelyGetValue p.forks 0
  let issues := safelyGetValue p.issues 0
  let vt : ProjectSourceType :=
    match safelyGetValue p.typeName "" with
    | "GITHUB" => .github
    | "GITLAB" => .gitlab
    | _ => .unspecified
  { project :=
      { sourceType := vt
        name := safelyGetValue p.name ""
        url := safelyGetValue p.link "" }
    stars := stars
    forks := forks
    issues := { total := issues } }

/-- One published license entry: id and name are both the license
token. -/
def translateLicense (license : String) : LicenseMeta :=
  { licenseId := license, name := license }

/-- The request assembly of syncPackage (lines after the session
lookup, before the PublishPackageInsight call): base request with empty
lists, then dependencies (warning-logged and left empty on error), then
vulnerabilities, projects and licenses from the safely-unwrapped
insights.  Returns the request together with the logs emitted. -/
def buildPublishRequest (session : SyncSession) (pkg : Package) :
    PublishPackageInsightRequest × List LogEntry :=
  let base : PublishPackageInsightRequest :=
    { toolSessionId := session.sessionId
      manifest :=
        { ecosystem := pkg.manifest.ctEcosystem
          namespaceField := pkg.manifest.path
          name := pkg.manifest.displayPath }
      packageVersion :=
        { package := { ecosystem := pkg.manifest.ctEcosystem, name := pkg.name }
          version := pkg.version }
      packageVersionInsight :=
        { dependencies := []
          vulnerabilities := []
          projectInsights := []
          licenses := [] } }
  let depsAndLogs : List ProtoPackageVersion × List LogEntry :=
    match pkg.dependencies with
    | .error e =>
      ([], [{ level := .warn
              message := "failed to get dependencies for package: " ++
                pkg.manifest.ecosystem ++ "/" ++ pkg.name ++ "/" ++
                pkg.version ++ ": " ++ e }])
    | .ok ds => (ds.map translateDependency, [])
  let insights := safelyGetValue pkg.insights emptyInsights
  let vulns :=
    (safelyGetValue insights.vulnerabilities []).map translateVulnerability
  let projects :=
    (safelyGetValue insights.projects []).map translateProject
  let lics :=
    (safelyGetValue insights.licenses []).map translateLicense
  ({ base with
      packageVersionInsight :=
        { dependencies := depsAndLogs.1
          vulnerabilities := vulns
          projectInsights := projects
          licenses := lics } },
    depsAndLogs.2)

/-- The observable outcome of one syncPackage call: the error it
returns, the request actually handed to PublishPackageInsight (none
when the call was never made), and the logs emitted. -/
structure SyncOutcome where
  result : Except String Unit
  published : Option PublishPackageInsightRequest
  logs : List LogEntry
  deriving Repr

/-- syncReporter.syncPackage: resolve the session by the manifest path,
build the request, publish it.  The remote publish outcome is the
parameter publish (none = success, some e = call failed with e). -/
def syncPackage (pool : SyncSessionPool)
    (publish : PublishPackageInsightRequest → Option String)
    (pkg : Package) : SyncOutcome :=
  match getSession pool pkg.manifest.path with
  | .error e =>
    { result := .error ("failed to get session for package: " ++
        pkg.manifest.ecosystem ++ "/" ++ pkg.name ++ "/" ++
        pkg.version ++ ": " ++ e)
      published := none
      logs := [] }
  | .ok session =>
    let reqAndLogs := buildPublishRequest session pkg
    match publish reqAndLogs.1 with
    | some e =>
      { result := .error ("failed to publish package insight: " ++ e)
        published := some reqAndLogs.1
        logs := reqAndLogs.2 }
    | none =>
      { result := .ok ()
        published := some reqAndLogs.1
        logs := reqAndLogs.2 }

/-! ## Reporter construction and lifecycle -/

/-- SyncReporterConfig. -/
structure SyncReporterConfig where
  controlTowerBaseUrl : String
  controlTowerToken : String
  enableMultiProjectSync : Bool
  projectName : String
  projectVersion : String
  triggerEvent : String
  gitRef : String
  gitRefName : String
  gitRefType : String
  gitSha : String
  workerCount : Nat
  toolName : String
  toolVersion : String
  deriving DecidableEq, Repr

/-- The session-pool population performed by NewSyncReporter (on the
success path): the pool starts empty, and only when
EnableMultiProjectSync is false is the primary (wildcard) session
installed with the created tool session id.  No other call site in the
reporter ever adds a session (addKeyedSession has no caller). -/
def newSyncReporterSessions (enableMultiProjectSync : Bool)
    (primarySessionId : String) : SyncSessionPool :=
  let pool : SyncSessionPool := []
  if !enableMultiProjectSync then
    addPrimarySession pool primarySessionId
  else
    pool

/-- An analyzer event; the reporter never reads it, so its fields are
irrelevant to the verified properties. -/
structure AnalyzerEvent where
  source : String
  message : String
  deriving DecidableEq, Repr

/-- A policy event; the reporter never reads it. -/
structure PolicyEvent where
  policyName : String
  message : String
  deriving DecidableEq, Repr

/-- The mutable state of a syncReporter: configuration, the work-queue
channel contents, the done channel (closed or not), the WaitGroup
counter, the session pool, plus ghost counters recording every
increment and decrement of the WaitGroup counter. -/
structure SyncReporterState where
  config : SyncReporterConfig
  workQueue : List Package
  doneClosed : Bool
  pendingCount : Nat
  sessions : SyncSessionPool
  incCount : Nat
  decCount : Nat
  deriving Repr

/-- The reporter state as NewSyncReporter leaves it. -/
def initialReporterState (config : SyncReporterConfig)
    (primarySessionId : String) : SyncReporterState :=
  { config := config
    workQueue := []
    doneClosed := false
    pendingCount := 0
    sessions := newSyncReporterSessions config.enableMultiProjectSync primarySessionId
    incCount := 0
    decCount := 0 }

/-- syncReporter.AddAnalyzerEvent: empty body. -/
def addAnalyzerEvent (s : SyncReporterState) (_ : AnalyzerEvent) :
    SyncReporterState :=
  s

/-- syncReporter.AddPolicyEvent: empty body. -/
def addPolicyEvent (s : SyncReporterState) (_ : PolicyEvent) :
    SyncReporterState :=
  s

/-- syncReporter.queuePackage: wg.Add(1), then send the package to the
work queue. -/
def queuePackage (s : SyncReporterState) (pkg : Package) :
    SyncReporterState :=
  { s with
      pendingCount := s.pendingCount + 1
      incCount := s.incCount + 1
      workQueue := s.workQueue ++ [pkg] }

/-- One worker dequeue-and-process step: take the next queued package
(if any), run syncPackage on it, and perform the deferred wg.Done().
The state change is the same whatever syncPackage's outcome is: the
deferred Done runs on the session-lookup-failure path, the
publish-failure path and the success path alike. -/
def workerResolveOne (s : SyncReporterState)
    (publish : PublishPackageInsightRequest → Option String) :
    SyncReporterState × Option SyncOutcome :=
  match s.workQueue with
  | [] => (s, none)
  | pkg :: rest =>
    let outcome := syncPackage s.sessions publish pkg
    ({ s with
        workQueue := rest
        pendingCount := s.pendingCount - 1
        decCount := s.decCount + 1 },
      some outcome)

/-- An observable event in a reporter run: a submission, or one worker
resolving one record (with the remote publish behaviour it saw). -/
inductive ReporterEvent
  | submit (pkg : Package)
  | resolve (publish : PublishPackageInsightRequest → Option String)

/-- One event step. -/
def stepEvent (s : SyncReporterState) : ReporterEvent → SyncReporterState
  | .submit pkg => queuePackage s pkg
  | .resolve publish => (workerResolveOne s publish).1

/-- A whole run: fold the events over a starting state. -/
def runEvents (s : SyncReporterState) (evs : List ReporterEvent) :
    SyncReporterState :=
  evs.foldl stepEvent s

/-- wg.Wait() in Finish returns exactly when the WaitGroup counter is
zero: the drain barrier. -/
def finishReady (s : SyncReporterState) : Bool :=
  s.pendingCount == 0

/-- syncReporter.Finish: blocked (none) until the drain barrier opens;
once the counter is zero it closes the done channel and runs the
session completions, returning their first error if any (some result). -/
def finish (s : SyncReporterState)
    (complete : SyncSession → Option String) : Option (Option String) :=
  if finishReady s then some (finishCompletions s.sessions complete) else none

/-! ## Worker loop shape -/

/-- What one select iteration of syncReportWorker observes: a package
from the work queue, or the closed done channel. -/
inductive WorkerSignal
  | work (pkg : Package)
  | doneSignal

/-- Whether the worker loops again or returns. -/
inductive WorkerAction
  | continueLoop
  | exitLoop
  deriving DecidableEq, Repr

/-- One iteration of syncReporter.syncReportWorker: on a dequeued
package, run it (processResult is the syncPackage error outcome), log
any error, and loop again; on the done signal, return. -/
def syncReportWorkerStep (sig : WorkerSignal)
    (processResult : Except String Unit) : WorkerAction × List LogEntry :=
  match sig with
  | .work _ =>
    match processResult with
    | .error e =>
      (.continueLoop, [{ level := .error, message := "failed to sync package: " ++ e }])
    | .ok _ => (.continueLoop, [])
  | .doneSignal => (.exitLoop, [])

/-! ## Pool lemmas -/

theorem poolInsert_cons_ne (a : String × SyncSession) (rest : SyncSessionPool)
    (k : String) (s : SyncSession) (h : (a.1 == k) = false) :
    poolInsert (a :: rest) k s = a :: poolInsert rest k s := by
  have h' : ¬ a.1 = k := by simpa using h
  unfold poolInsert
  cases hany : rest.any (fun e => e.1 == k) <;>
    simp [List.any_cons, h, h', hany]

theorem poolLookup_cons (a : String × SyncSession) (rest : SyncSessionPool)
    (k : String) :
    poolLookup (a :: rest) k =
      (if (a.1 == k) = true then some a.2 else poolLookup rest k) := by
  unfold poolLookup
  rw [List.find?_cons]
  cases h : (a.1 == k) <;> simp [h]

theorem poolLookup_poolInsert_self (pool : SyncSessionPool) (k : String)
    (s : SyncSession) : poolLookup (poolInsert pool k s) k = some s := by
  induction pool with
  | nil => simp [poolInsert, poolLookup]
  | cons a rest ih =>
    cases h : (a.1 == k) with
    | false =>
      rw [poolInsert_cons_ne a rest k s h, poolLookup_cons]
      simp [h, ih]
    | true =>
      unfold poolInsert
      have : ((a :: rest).any fun e => e.1 == k) = true := by
        simp [List.any_cons, h]
      rw [if_pos this]
      simp only [List.map_cons, h, if_true]
      rw [poolLookup_cons]
      simp

theorem poolLookup_map_replace_ne (pool : SyncSessionPool) (k k' : String)
    (s : SyncSession) (h : (k == k') = false) :
    poolLookup (pool.map (fun e => if (e.1 == k) = true then (k, s) else e)) k' =
      poolLookup pool k' := by
  induction pool with
  | nil => rfl
  | cons a rest ih =>
    simp only [List.map_cons]
    cases ha : (a.1 == k) with
    | true =>
      have ha' : a.1 = k := eq_of_beq ha
      rw [if_pos rfl]
      rw [poolLookup_cons, poolLookup_cons]
      have hk'a : (a.1 == k') = false := by rw [ha']; exact h
      simp only [h, hk'a, Bool.false_eq_true, if_false]
      simpa using ih
    | false =>
      rw [if_neg (by simp)]
      rw [poolLookup_cons, poolLookup_cons]
      cases hk' : (a.1 == k') with
      | true => simp
      | false =>
        simp only [Bool.false_eq_true, if_false]
        simpa using ih

theorem poolLookup_poolInsert_ne (pool : SyncSessionPool) (k k' : String)
    (s : SyncSession) (h : (k == k') = false) :
    poolLookup (poolInsert pool k s) k' = poolLookup pool k' := by
  unfold poolInsert
  cases hany : pool.any (fun e => e.1 == k) with
  | true =>
    rw [if_pos rfl]
    exact poolLookup_map_replace_ne pool k k' s h
  | false =>
    rw [if_neg (by simp)]
    unfold poolLookup
    rw [List.find?_append]
    have : List.find? (fun e => e.1 == k') [(k, s)] = none := by
      simp [List.find?_cons, h]
    rw [this]
    simp

theorem getSession_of_wildcard (pool : SyncSessionPool) (key : String)
    (s : SyncSession) (h : poolLookup pool "*" = some s) :
    getSession pool key = .ok s := by
  unfold getSession
  rw [h]

theorem poolLookup_addPrimarySession (pool : SyncSessionPool) (sid : String) :
    poolLookup (addPrimarySession pool sid) "*" = some { sessionId := sid } :=
  poolLookup_poolInsert_self pool "*" _

/-! ## forEach lemmas -/

theorem forEach_eq_findSome (pool : SyncSessionPool)
    (f : String → SyncSession → Option String) :
    forEach pool f = pool.findSome? (fun e => f e.1 e.2) := by
  induction pool with
  | nil => rfl
  | cons a rest ih =>
    obtain ⟨k, sess⟩ := a
    rw [List.findSome?_cons]
    unfold forEach
    cases f k sess <;> simp [ih]

theorem forEachVisited_all_ok (pool : SyncSessionPool)
    (f : String → SyncSession → Option String)
    (h : ∀ e ∈ pool, f e.1 e.2 = none) :
    forEachVisited pool f = pool.map (fun e => e.2.sessionId) := by
  induction pool with
  | nil => rfl
  | cons a rest ih =>
    obtain ⟨k, sess⟩ := a
    have hk : f k sess = none := h _ (List.mem_cons_self _ _)
    have ht : forEachVisited rest f = rest.map (fun e => e.2.sessionId) :=
      ih (fun e he => h e (List.mem_cons_of_mem _ he))
    unfold forEachVisited
    rw [hk, ht]
    rfl

theorem forEach_all_ok (pool : SyncSessionPool)
    (f : String → SyncSession → Option String)
    (h : ∀ e ∈ pool, f e.1 e.2 = none) :
    forEach pool f = none := by
  induction pool with
  | nil => rfl
  | cons a rest ih =>
    obtain ⟨k, sess⟩ := a
    have hk : f k sess = none := h _ (List.mem_cons_self _ _)
    unfold forEach
    rw [hk]
    exact ih (fun e he => h e (List.mem_cons_of_mem _ he))

theorem forEach_append_first_fail (pre : SyncSessionPool) (k : String)
    (sess : SyncSession) (post : SyncSessionPool)
    (f : String → SyncSession → Option String) (err : String)
    (hpre : ∀ e ∈ pre, f e.1 e.2 = none) (hf : f k sess = some err) :
    forEach (pre ++ (k, sess) :: post) f = some err ∧
    forEachVisited (pre ++ (k, sess) :: post) f =
      pre.map (fun e => e.2.sessionId) ++ [sess.sessionId] := by
  induction pre with
  | nil =>
    constructor
    · simp [forEach, hf]
    · simp [forEachVisited, hf]
  | cons a rest ih =>
    obtain ⟨k', sess'⟩ := a
    have hk : f k' sess' = none := hpre _ (List.mem_cons_self _ _)
    have ht := ih (fun e he => hpre e (List.mem_cons_of_mem _ he))
    constructor
    · rw [List.cons_append]
      unfold forEach
      rw [hk]
      exact ht.1
    · rw [List.cons_append]
      unfold forEachVisited
      rw [hk, ht.2]
      rfl

/-! ## Pending-counter invariant -/

/-- The run invariant: the WaitGroup counter equals the number of
queued-but-unresolved records, and every increment is accounted for by
either a decrement or a still-pending record. -/
def reporterInvariant (s : SyncReporterState) : Prop :=
  s.pendingCount = s.workQueue.length ∧
  s.incCount = s.decCount + s.pendingCount

theorem reporterInvariant_initial (config : SyncReporterConfig)
    (sid : String) : reporterInvariant (initialReporterState config sid) :=
  ⟨rfl, rfl⟩

theorem reporterInvariant_step (s : SyncReporterState) (ev : ReporterEvent)
    (h : reporterInvariant s) : reporterInvariant (stepEvent s ev) := by
  obtain ⟨h1, h2⟩ := h
  cases ev with
  | submit pkg =>
    refine ⟨?_, ?_⟩
    · simp [stepEvent, queuePackage, h1]
    · simp [stepEvent, queuePackage, h2]
      omega
  | resolve publish =>
    cases hq : s.workQueue with
    | nil =>
      have h0 : s.pendingCount = 0 := by rw [h1, hq]; rfl
      refine ⟨?_, ?_⟩ <;>
        simp [stepEvent, workerResolveOne, hq, h0, h1, h2]
    | cons p rest =>
      have hlen : s.pendingCount = rest.length + 1 := by
        rw [h1, hq]; rfl
      refine ⟨?_, ?_⟩ <;> simp [stepEvent, workerResolveOne, hq] <;> omega

theorem reporterInvariant_run (s : SyncReporterState)
    (evs : List ReporterEvent) (h : reporterInvariant s) :
    reporterInvariant (runEvents s evs) := by
  induction evs generalizing s with
  | nil => exact h
  | cons e t ih =>
    have : runEvents s (e :: t) = runEvents (stepEvent s e) t := by
      simp [runEvents]
    rw [this]
    exact ih _ (reporterInvariant_step s e h)

/-! ## Concrete fixtures used by witnesses and counterexamples -/

/-- A concrete package record. -/
def samplePackage : Package :=
  { manifest :=
      { ecosystem := "npm"
        path := "package.json"
        displayPath := "package.json"
        ctEcosystem := "ECOSYSTEM_NPM" }
    name := "lodash"
    version := "4.17.21"
    insights := none
    dependencies := .ok [] }

/-- A concrete reporter configuration. -/
def sampleConfig : SyncReporterConfig :=
  { controlTowerBaseUrl := "https://api.example.com"
    controlTowerToken := "token"
    enableMultiProjectSync := false
    projectName := "proj"
    projectVersion := "v1"
    triggerEvent := "manual"
    gitRef := ""
    gitRefName := ""
    gitRefType := ""
    gitSha := ""
    workerCount := 10
    toolName := "vet"
    toolVersion := "1.0.0" }

/-- A pool holding two distinct sessions. -/
def cexPool : SyncSessionPool :=
  [("manifest-a", { sessionId := "session-1" }),
   ("manifest-b", { sessionId := "session-2" })]

/-- A remote whose completion call fails for session-1 and succeeds
otherwise. -/
def cexComplete (s : SyncSession) : Option String :=
  if s.sessionId = "session-1" then some "completion failed" else none

/-! ## Claim theorems -/

/-- C2: with EnableMultiProjectSync set, NewSyncReporter installs no
session at all (the wildcard branch is skipped and addKeyedSession has
no caller), so the pool is empty, getSession fails with
session-not-found for every key, and syncPackage drops every dequeued
record: nothing is published and the session-lookup error is
returned. -/
theorem multiProjectSync_installs_no_session :
    (∀ sid, newSyncReporterSessions true sid = []) ∧
    (∀ sid key, getSession (newSyncReporterSessions true sid) key =
      .error ("session not found for key: " ++ key)) ∧
    (∀ sid publish pkg,
      (syncPackage (newSyncReporterSessions true sid) publish pkg).published = none ∧
      (syncPackage (newSyncReporterSessions true sid) publish pkg).result =
        .error ("failed to get session for package: " ++
          pkg.manifest.ecosystem ++ "/" ++ pkg.name ++ "/" ++
          pkg.version ++ ": " ++
          ("session not found for key: " ++ pkg.manifest.path))) :=
  ⟨fun _ => rfl,
   fun _ _ => rfl,
   fun _ _ _ => ⟨rfl, rfl⟩⟩

/-- C3: whenever the wildcard key is present in the pool, getSession
returns the wildcard session for every requested key — in particular
after addPrimarySession, and still after any later addKeyedSession
under a non-wildcard key; when the wildcard is absent, getSession
returns the exact-key session if present and otherwise the
session-not-found error. -/
theorem wildcard_session_lookup :
    (∀ pool key s, poolLookup pool "*" = some s →
       getSession pool key = .ok s) ∧
    (∀ pool sid key,
       getSession (addPrimarySession pool sid) key = .ok { sessionId := sid }) ∧
    (∀ pool sid k ksid key, (k == "*") = false →
       getSession (addKeyedSession (addPrimarySession pool sid) k ksid) key =
         .ok { sessionId := sid }) ∧
    (∀ pool key s, poolLookup pool "*" = none → poolLookup pool key = some s →
       getSession pool key = .ok s) ∧
    (∀ pool key, poolLookup pool "*" = none → poolLookup pool key = none →
       getSession pool key =
         .error ("session not found for key: " ++ key)) := by
  refine ⟨?_, ?_, ?_, ?_, ?_⟩
  · intro pool key s h
    exact getSession_of_wildcard pool key s h
  · intro pool sid key
    exact getSession_of_wildcard _ key _ (poolLookup_addPrimarySession pool sid)
  · intro pool sid k ksid key hk
    refine getSession_of_wildcard _ key _ ?_
    unfold addKeyedSession
    rw [poolLookup_poolInsert_ne _ k "*" _ hk]
    exact poolLookup_addPrimarySession pool sid
  · intro pool key s h1 h2
    unfold getSession
    rw [h1, h2]
  · intro pool key h1 h2
    unfold getSession
    rw [h1, h2]

/-- Witness for C3 at concrete inputs: a keyed session added after the
wildcard does not shadow it, and an empty-pool lookup fails with the
session-not-found error. -/
theorem wildcard_session_lookup_witness :
    getSession (addKeyedSession (addPrimarySession [] "s0") "k1" "s1") "other" =
      .ok { sessionId := "s0" } ∧
    getSession [] "missing" =
      .error ("session not found for key: " ++ "missing") :=
  ⟨wildcard_session_lookup.2.2.1 [] "s0" "k1" "s1" "other" (by decide),
   wildcard_session_lookup.2.2.2.2 [] "missing" rfl rfl⟩

/-- C9: a worker iteration never exits because processing failed — a
dequeued record always leads to another loop iteration, with the error
merely logged — and the exit action occurs exactly on the done
signal. -/
theorem worker_exits_only_on_done_signal :
    (∀ pkg r, (syncReportWorkerStep (.work pkg) r).1 = .continueLoop) ∧
    (∀ pkg e, (syncReportWorkerStep (.work pkg) (.error e)).2 =
      [{ level := .error, message := "failed to sync package: " ++ e }]) ∧
    (∀ r, syncReportWorkerStep .doneSignal r = (.exitLoop, [])) ∧
    (∀ sig r, (syncReportWorkerStep sig r).1 = .exitLoop ↔ sig = .doneSignal) := by
  refine ⟨?_, ?_, ?_, ?_⟩
  · intro pkg r
    cases r <;> rfl
  · intro pkg e
    rfl
  · intro r
    rfl
  · intro sig r
    cases sig with
    | work pkg =>
      cases r <;> simp [syncReportWorkerStep]
    | doneSignal =>
      simp [syncReportWorkerStep]

/-- C10: AddAnalyzerEvent and AddPolicyEvent have empty bodies: they
leave the whole reporter state untouched and enqueue nothing. -/
theorem analyzer_policy_events_are_noops :
    (∀ s e, addAnalyzerEvent s e = s) ∧
    (∀ s e, addPolicyEvent s e = s) ∧
    (∀ s e, (addAnalyzerEvent s e).workQueue = s.workQueue ∧
            (addAnalyzerEvent s e).pendingCount = s.pendingCount ∧
            (addAnalyzerEvent s e).sessions = s.sessions ∧
            (addAnalyzerEvent s e).doneClosed = s.doneClosed ∧
            (addAnalyzerEvent s e).config = s.config) :=
  ⟨fun _ _ => rfl, fun _ _ => rfl,
   fun _ _ => ⟨rfl, rfl, rfl, rfl, rfl⟩⟩

/-- C5: the published vulnerability list is the input list translated
element-wise; each published identifier carries the id value and the
summary verbatim, and its type is CVE exactly when the id starts with
CVE-, OSV exactly when it starts with OSV-, and unspecified otherwise
(for instance for a GHSA- id). -/
theorem vulnerability_identifier_classification :
    (∀ session pkg ins vs, pkg.insights = some ins →
       ins.vulnerabilities = some vs →
       (buildPublishRequest session pkg).1.packageVersionInsight.vulnerabilities =
         vs.map translateVulnerability) ∧
    (∀ v, (translateVulnerability v).id.value = safelyGetValue v.id "" ∧
          (translateVulnerability v).summary = safelyGetValue v.summary "" ∧
          (translateVulnerability v).id.idType =
            (if stringStartsWith (safelyGetValue v.id "") "CVE-" then .cve
             else if stringStartsWith (safelyGetValue v.id "") "OSV-" then .osv
             else .unspecified)) ∧
    (translateVulnerability { id := some "CVE-1234-5678", summary := some "a summary" } =
      { id := { value := "CVE-1234-5678", idType := .cve }, summary := "a summary" }) ∧
    (translateVulnerability { id := some "OSV-2021-123", summary := some "a summary" } =
      { id := { value := "OSV-2021-123", idType := .osv }, summary := "a summary" }) ∧
    (translateVulnerability { id := some "GHSA-xxxx", summary := some "a summary" } =
      { id := { value := "GHSA-xxxx", idType := .unspecified }, summary := "a summary" }) := by
  refine ⟨?_, ?_, by decide, by decide, by decide⟩
  · intro session pkg ins vs hins hvs
    simp [buildPublishRequest, safelyGetValue, hins, hvs]
  · intro v
    unfold translateVulnerability
    cases h1 : stringStartsWith (safelyGetValue v.id "") "CVE-" <;>
      cases h2 : stringStartsWith (safelyGetValue v.id "") "OSV-" <;>
        simp [h1, h2]

/-- Witness for C5: a record carrying one CVE vulnerability publishes
exactly its translation. -/
theorem vulnerability_identifier_classification_witness :
    (buildPublishRequest { sessionId := "s0" }
        { manifest :=
            { ecosystem := "npm"
              path := "package.json"
              displayPath := "package.json"
              ctEcosystem := "ECOSYSTEM_NPM" }
          name := "lodash"
          version := "4.17.21"
          insights := some
            { vulnerabilities :=
                some [{ id := some "CVE-1234-5678", summary := some "a summary" }]
              projects := none
              licenses := none }
          dependencies := .ok [] }).1.packageVersionInsight.vulnerabilities =
      [{ id := some "CVE-1234-5678", summary := some "a summary" }].map
        translateVulnerability :=
  vulnerability_identifier_classification.1 { sessionId := "s0" } _ _ _ rfl rfl

/-- C6: when GetDependencies fails, the record is still published with
an empty dependency list and only a warning log; when it succeeds, one
dependency entry with the child's ecosystem, name and version is
emitted per child. -/
theorem dependency_list_best_effort :
    (∀ session pkg e, pkg.dependencies = .error e →
       (buildPublishRequest session pkg).1.packageVersionInsight.dependencies = [] ∧
       (buildPublishRequest session pkg).2 =
         [{ level := .warn
            message := "failed to get dependencies for package: " ++
              pkg.manifest.ecosystem ++ "/" ++ pkg.name ++ "/" ++
              pkg.version ++ ": " ++ e }]) ∧
    (∀ pool publish pkg session e,
       getSession pool pkg.manifest.path = .ok session →
       pkg.dependencies = .error e →
       publish (buildPublishRequest session pkg).1 = none →
       (syncPackage pool publish pkg).result = .ok () ∧
       (syncPackage pool publish pkg).published =
         some (buildPublishRequest session pkg).1) ∧
    (∀ session pkg ds, pkg.dependencies = .ok ds →
       (buildPublishRequest session pkg).1.packageVersionInsight.dependencies =
         ds.map translateDependency) ∧
    (∀ child, translateDependency child =
       { package := { ecosystem := child.ctEcosystem, name := child.name }
         version := child.version }) := by
  refine ⟨?_, ?_, ?_, fun _ => rfl⟩
  · intro session pkg e he
    constructor <;> simp [buildPublishRequest, he]
  · intro pool publish pkg session e hs he hp
    constructor <;> simp [syncPackage, hs, hp]
  · intro session pkg ds hds
    simp [buildPublishRequest, hds]

/-- Witness for C6: a concrete record whose dependency enumeration
fails is still published, with an empty dependency list and the
warning logged. -/
theorem dependency_list_best_effort_witness :
    ((buildPublishRequest { sessionId := "s0" }
        { samplePackage with
            dependencies := .error "deps boom" }).1.packageVersionInsight.dependencies =
      [] ∧
     (buildPublishRequest { sessionId := "s0" }
        { samplePackage with dependencies := .error "deps boom" }).2 =
       [{ level := .warn
          message := "failed to get dependencies for package: " ++
            "npm" ++ "/" ++ "lodash" ++ "/" ++ "4.17.21" ++ ": " ++ "deps boom" }]) ∧
    (syncPackage (addPrimarySession [] "s0") (fun _ => none)
        { samplePackage with dependencies := .error "deps boom" }).result = .ok () := by
  constructor
  · exact dependency_list_best_effort.1 { sessionId := "s0" }
      { samplePackage with dependencies := .error "deps boom" } "deps boom" rfl
  · exact (dependency_list_best_effort.2.1 (addPrimarySession [] "s0") (fun _ => none)
      { samplePackage with dependencies := .error "deps boom" }
      { sessionId := "s0" } "deps boom" rfl rfl rfl).1

/-- C7: translation is total on absent optional data: a record with nil
insights translates to a request whose four insight lists are all
empty, both when the dependency enumeration yields nothing and when it
fails; absent optional scalars degrade to the zero value. -/
theorem translation_total_on_absent_data :
    (∀ session pkg, pkg.insights = none → pkg.dependencies = .ok [] →
       ((buildPublishRequest session pkg).1.packageVersionInsight.dependencies = [] ∧
        (buildPublishRequest session pkg).1.packageVersionInsight.vulnerabilities = [] ∧
        (buildPublishRequest session pkg).1.packageVersionInsight.projectInsights = [] ∧
        (buildPublishRequest session pkg).1.packageVersionInsight.licenses = [])) ∧
    (∀ session pkg e, pkg.insights = none → pkg.dependencies = .error e →
       ((buildPublishRequest session pkg).1.packageVersionInsight.dependencies = [] ∧
        (buildPublishRequest session pkg).1.packageVersionInsight.vulnerabilities = [] ∧
        (buildPublishRequest session pkg).1.packageVersionInsight.projectInsights = [] ∧
        (buildPublishRequest session pkg).1.packageVersionInsight.licenses = [])) ∧
    (translateVulnerability { id := none, summary := none } =
       { id := { value := "", idType := .unspecified }, summary := "" }) ∧
    (translateProject
       { typeName := none, name := none, link := none
         stars := none, forks := none, issues := none } =
       { project := { sourceType := .unspecified, name := "", url := "" }
         stars := 0, forks := 0, issues := { total := 0 } }) := by
  refine ⟨?_, ?_, by decide, by decide⟩
  · intro session pkg hins hdeps
    refine ⟨?_, ?_, ?_, ?_⟩ <;>
      simp [buildPublishRequest, safelyGetValue, emptyInsights, hins, hdeps]
  · intro session pkg e hins hdeps
    refine ⟨?_, ?_, ?_, ?_⟩ <;>
      simp [buildPublishRequest, safelyGetValue, emptyInsights, hins, hdeps]

/-- Witness for C7: the sample package (nil insights, empty dependency
result) publishes all-empty insight lists, and so does its variant
whose dependency enumeration fails. -/
theorem translation_total_on_absent_data_witness :
    (buildPublishRequest { sessionId := "s0" }
        samplePackage).1.packageVersionInsight.vulnerabilities = [] ∧
    (buildPublishRequest { sessionId := "s0" }
        { samplePackage with
            dependencies := .error "boom" }).1.packageVersionInsight.projectInsights =
      [] :=
  ⟨(translation_total_on_absent_data.1 { sessionId := "s0" }
      samplePackage rfl rfl).2.1,
   (translation_total_on_absent_data.2.1 { sessionId := "s0" }
      { samplePackage with dependencies := .error "boom" } "boom" rfl rfl).2.2.1⟩

/-- C8: the published project-insight list is the input project list
translated element-wise; each entry classifies the source type from the
type string (GITHUB, GITLAB, otherwise unspecified) and always carries
star, fork and issue counts, defaulting each missing count to zero. -/
theorem project_insight_translation :
    (∀ session pkg ins ps, pkg.insights = some ins → ins.projects = some ps →
       (buildPublishRequest session pkg).1.packageVersionInsight.projectInsights =
         ps.map translateProject) ∧
    (∀ p, (translateProject p).stars = safelyGetValue p.stars 0 ∧
          (translateProject p).forks = safelyGetValue p.forks 0 ∧
          (translateProject p).issues.total = safelyGetValue p.issues 0 ∧
          (translateProject p).project.name = safelyGetValue p.name "" ∧
          (translateProject p).project.url = safelyGetValue p.link "" ∧
          (translateProject p).project.sourceType =
            (if safelyGetValue p.typeName "" = "GITHUB" then .github
             else if safelyGetValue p.typeName "" = "GITLAB" then .gitlab
             else .unspecified)) ∧
    ((translateProject
        { typeName := some "GITHUB", name := some "repo", link := some "u"
          stars := some 42, forks := some 7, issues := some 3 }).project.sourceType =
       .github) ∧
    ((translateProject
        { typeName := some "GITHUB", name := some "repo", link := some "u"
          stars := some 42, forks := some 7, issues := some 3 }).stars = 42) ∧
    ((translateProject
        { typeName := some "GITLAB", name := none, link := none
          stars := none, forks := none, issues := none }).project.sourceType =
       .gitlab) ∧
    ((translateProject
        { typeName := some "BITBUCKET", name := none, link := none
          stars := none, forks := none, issues := none }).project.sourceType =
       .unspecified) := by
  refine ⟨?_, ?_, by decide, by decide, by decide, by decide⟩
  · intro session pkg ins ps hins hps
    simp [buildPublishRequest, safelyGetValue, hins, hps]
  · intro p
    refine ⟨rfl, rfl, rfl, rfl, rfl, ?_⟩
    unfold translateProject
    split <;> simp_all

/-- Witness for C8: a record with one GITHUB project with 42 stars
publishes exactly its translation. -/
theorem project_insight_translation_witness :
    (buildPublishRequest { sessionId := "s0" }
        { samplePackage with
            insights := some
              { vulnerabilities := none
                projects := some
                  [{ typeName := some "GITHUB", name := some "repo"
                     link := some "u", stars := some 42
                     forks := some 7, issues := some 3 }]
                licenses := none } }).1.packageVersionInsight.projectInsights =
      [{ typeName := some "GITHUB", name := some "repo", link := some "u"
         stars := some 42, forks := some 7, issues := some 3 }].map
        translateProject :=
  project_insight_translation.1 { sessionId := "s0" } _ _ _ rfl rfl

/-- C1 counterexample: with two registered sessions whose first
completion call fails, Finish returns that first error but attempts no
completion for the second session — forEach stops visiting at the
first error, so completion is not best-effort over all sessions. -/
theorem finish_not_best_effort_counterexample :
    finishCompletions cexPool cexComplete = some "completion failed" ∧
    finishAttempted cexPool cexComplete = ["session-1"] ∧
    cexPool.map (fun e => e.2.sessionId) = ["session-1", "session-2"] ∧
    finishAttempted cexPool cexComplete ≠ cexPool.map (fun e => e.2.sessionId) := by
  refine ⟨rfl, rfl, rfl, ?_⟩
  decide

/-- C1 amended: after the drain, Finish attempts session-completion
calls in registry iteration order and stops at the first failure: it
returns the first completion error encountered and does not attempt the
sessions after the failing one; when every completion succeeds, every
session is attempted and nil is returned. -/
theorem finish_first_error_short_circuits :
    (∀ pool complete, finishCompletions pool complete =
       pool.findSome? (fun e => complete e.2)) ∧
    (∀ pool complete, (∀ e ∈ pool, complete e.2 = none) →
       finishAttempted pool complete = pool.map (fun e => e.2.sessionId) ∧
       finishCompletions pool complete = none) ∧
    (∀ pre k sess post complete err,
       (∀ e ∈ pre, complete e.2 = none) → complete sess = some err →
       finishCompletions (pre ++ (k, sess) :: post) complete = some err ∧
       finishAttempted (pre ++ (k, sess) :: post) complete =
         pre.map (fun e => e.2.sessionId) ++ [sess.sessionId]) := by
  refine ⟨?_, ?_, ?_⟩
  · intro pool complete
    exact forEach_eq_findSome pool (fun _ s => complete s)
  · intro pool complete h
    exact ⟨forEachVisited_all_ok pool _ (fun e he => h e he),
           forEach_all_ok pool _ (fun e he => h e he)⟩
  · intro pre k sess post complete err hpre hf
    exact forEach_append_first_fail pre k sess post
      (fun _ s => complete s) err (fun e he => hpre e he) hf

/-- Witness for C1 (amended) at concrete inputs: with sessions s1, s2,
s3 where completing s2 fails, Finish attempts s1 then s2, skips s3 and
returns the s2 error; when nothing fails, all of cexPool is
attempted. -/
theorem finish_first_error_short_circuits_witness :
    (finishCompletions
        ([("a", { sessionId := "s1" })] ++
          ("b", { sessionId := "s2" }) :: [("c", { sessionId := "s3" })])
        (fun s => if s.sessionId = "s2" then some "late failure" else none) =
      some "late failure" ∧
     finishAttempted
        ([("a", { sessionId := "s1" })] ++
          ("b", { sessionId := "s2" }) :: [("c", { sessionId := "s3" })])
        (fun s => if s.sessionId = "s2" then some "late failure" else none) =
      [("a", ({ sessionId := "s1" } : SyncSession))].map (fun e => e.2.sessionId) ++
        ["s2"]) ∧
    finishAttempted cexPool (fun _ => none) =
      cexPool.map (fun e => e.2.sessionId) := by
  constructor
  · exact finish_first_error_short_circuits.2.2
      [("a", { sessionId := "s1" })] "b" { sessionId := "s2" }
      [("c", { sessionId := "s3" })]
      (fun s => if s.sessionId = "s2" then some "late failure" else none)
      "late failure" (by decide) (by decide)
  · exact (finish_first_error_short_circuits.2.1 cexPool
      (fun _ => none) (fun _ _ => rfl)).1

/-- C4: queuePackage increments the pending counter exactly once; each
worker resolution decrements it exactly once whatever the outcome (the
state change is identical for every publish behaviour, covering
session-lookup failure, publish failure and success); over any run from
the initial state, increments always equal decrements plus the pending
counter, so once the queue has drained the totals are equal, the
wg.Wait barrier opens, and only then does Finish run the session
completions. -/
theorem pending_counter_balanced :
    (∀ s pkg, (queuePackage s pkg).incCount = s.incCount + 1 ∧
              (queuePackage s pkg).pendingCount = s.pendingCount + 1 ∧
              (queuePackage s pkg).decCount = s.decCount) ∧
    (∀ s publish pkg rest, s.workQueue = pkg :: rest →
       (workerResolveOne s publish).1.decCount = s.decCount + 1 ∧
       (workerResolveOne s publish).1.pendingCount = s.pendingCount - 1 ∧
       (workerResolveOne s publish).1.incCount = s.incCount) ∧
    (∀ s publish publish',
       (workerResolveOne s publish).1 = (workerResolveOne s publish').1) ∧
    (∀ config sid evs,
       (runEvents (initialReporterState config sid) evs).incCount =
         (runEvents (initialReporterState config sid) evs).decCount +
           (runEvents (initialReporterState config sid) evs).pendingCount ∧
       ((runEvents (initialReporterState config sid) evs).workQueue = [] →
          (runEvents (initialReporterState config sid) evs).incCount =
            (runEvents (initialReporterState config sid) evs).decCount ∧
          finishReady (runEvents (initialReporterState config sid) evs) = true ∧
          ∀ complete,
            finish (runEvents (initialReporterState config sid) evs) complete =
              some (finishCompletions
                (runEvents (initialReporterState config sid) evs).sessions
                complete))) := by
  refine ⟨?_, ?_, ?_, ?_⟩
  · intro s pkg
    exact ⟨rfl, rfl, rfl⟩
  · intro s publish pkg rest hq
    refine ⟨?_, ?_, ?_⟩ <;> simp [workerResolveOne, hq]
  · intro s publish publish'
    cases hq : s.workQueue <;> simp [workerResolveOne, hq]
  · intro config sid evs
    have hinv := reporterInvariant_run (initialReporterState config sid) evs
      (reporterInvariant_initial config sid)
    obtain ⟨h1, h2⟩ := hinv
    refine ⟨h2, ?_⟩
    intro hempty
    have h0 : (runEvents (initialReporterState config sid) evs).pendingCount = 0 := by
      rw [h1, hempty]
      rfl
    have hready : finishReady (runEvents (initialReporterState config sid) evs) = true := by
      simp [finishReady, h0]
    refine ⟨by omega, hready, ?_⟩
    intro complete
    simp [finish, hready]

/-- Witness for C4 at concrete inputs: resolving the one queued sample
package decrements the counter, and the drained one-submit one-resolve
run has equal increment and decrement totals with Finish unblocked. -/
theorem pending_counter_balanced_witness :
    ((workerResolveOne
        (queuePackage (initialReporterState sampleConfig "s0") samplePackage)
        (fun _ => none)).1.decCount = 0 + 1 ∧
     (workerResolveOne
        (queuePackage (initialReporterState sampleConfig "s0") samplePackage)
        (fun _ => none)).1.pendingCount = 1 - 1) ∧
    (runEvents (initialReporterState sampleConfig "s0")
        [.submit samplePackage, .resolve (fun _ => none)]).incCount =
      (runEvents (initialReporterState sampleConfig "s0")
        [.submit samplePackage, .resolve (fun _ => none)]).decCount ∧
    finishReady (runEvents (initialReporterState sampleConfig "s0")
        [.submit samplePackage, .resolve (fun _ => none)]) = true := by
  have h2 := pending_counter_balanced.2.1
    (queuePackage (initialReporterState sampleConfig "s0") samplePackage)
    (fun _ => none) samplePackage [] rfl
  have h4 := (pending_counter_balanced.2.2.2 sampleConfig "s0"
    [.submit samplePackage, .resolve (fun _ => none)]).2 rfl
  exact ⟨⟨h2.1, h2.2.1⟩, h4.1, h4.2.1⟩

end Vet
